import Mathlib

/-
Verification development for the cadence matching/history/visibility core.

Shallow embedding of:
  * src/service/matching/service.go   — matching Service start/stop and the
    taskWriter (appendTask, taskWriterLoop, getWriteBatch, sendWriteResponse,
    GetMaxReadLevel);
  * src/unnamed/part_000              — cassandraVisibilityPersistence
    (RecordWorkflowExecutionClosed and the CQL batch it builds);
  * src/common/service/config/log.go  — the history metricClient wrappers;
  * the timer queue processor retry protocol (modelled from the spec, the
    processor implementation is not part of the source tree).

Go channels are modelled as FIFO lists; a buffered channel of capacity c
accepts a non-blocking send exactly when fewer than c items are queued.
Machine integers (int64) are modelled as Int; errors as small codes.
-/

namespace Cadence

/-! ## Matching task writer (src/service/matching/service.go) -/

/-- Channel capacity of the writer submit channel (service.go line 114). -/
def outstandingTaskAppendsThreshold : Nat := 250

/-- Batch-drain loop bound in getWriteBatch (service.go line 115). -/
def maxTaskBatchSize : Nat := 100

/-- Error codes used by the embedding: service-busy is the throttle error
produced by appendTask; store errors carry an abstract code. -/
inductive WriterError where
  | serviceBusy : WriterError
  | store : Nat → WriterError
deriving DecidableEq, Repr

/-- A writeTaskRequest: the workflow execution and task payload are opaque to
the writer, so they are represented by identifiers; rangeID is the caller's
lease epoch; responseCh identifies the per-request response channel. -/
structure WriteTaskRequest where
  executionRef : Nat
  taskInfoRef : Nat
  rangeID : Int
  responseCh : Nat
deriving DecidableEq, Repr

/-- A writeTaskResponse: the error and the (opaque) persistence response,
exactly the two fields the Go struct carries. -/
structure WriteTaskResponse where
  err : Option WriterError
  persistenceResponse : Option Nat
deriving DecidableEq, Repr

/-- Mutable state of a taskWriter visible to the embedding: the buffered
submit channel contents (FIFO, head is next to be received), the published
maxReadLevel, and whether the channel has been closed. -/
structure TaskWriterState where
  appendCh : List WriteTaskRequest
  maxReadLevel : Int
  closed : Bool
deriving DecidableEq, Repr

/-- Result of the caller-side select in appendTask: either the request was
accepted onto the channel (the caller then blocks only on its response
channel), or the select took the default branch and the call returned the
service-busy error at once. -/
inductive AppendTaskOutcome where
  | enqueued : AppendTaskOutcome
  | rejected : WriterError → AppendTaskOutcome
deriving DecidableEq, Repr

/-- createServiceBusyError from the matching service. -/
def createServiceBusyError : WriterError := WriterError.serviceBusy

/-- appendTask (service.go lines 159-176): a select with a default branch on
the buffered appendCh. The send succeeds exactly when the buffer has room;
otherwise the call immediately returns the service-busy error, leaving the
channel untouched. -/
def appendTask (st : TaskWriterState) (req : WriteTaskRequest) :
    TaskWriterState × AppendTaskOutcome :=
  if st.appendCh.length < outstandingTaskAppendsThreshold then
    ({ st with appendCh := st.appendCh ++ [req] }, AppendTaskOutcome.enqueued)
  else
    (st, AppendTaskOutcome.rejected createServiceBusyError)

/-- GetMaxReadLevel (service.go lines 178-180): an atomic load of the
published maxReadLevel. -/
def GetMaxReadLevel (st : TaskWriterState) : Int :=
  st.maxReadLevel

/-- The readLoop of getWriteBatch: up to fuel more non-blocking receives from
the channel, stopping early when the channel is empty. Returns the grown
request list and the remaining channel contents. -/
def getWriteBatchAux : Nat → List WriteTaskRequest → List WriteTaskRequest →
    List WriteTaskRequest × List WriteTaskRequest
  | 0, ch, reqs => (reqs, ch)
  | Nat.succ _, [], reqs => (reqs, [])
  | Nat.succ n, r :: rest, reqs => getWriteBatchAux n rest (reqs ++ [r])

/-- getWriteBatch (service.go lines 246-257): drains up to maxTaskBatchSize
additional requests (loop bound i < maxTaskBatchSize) without blocking. -/
def getWriteBatch (ch : List WriteTaskRequest) (reqs : List WriteTaskRequest) :
    List WriteTaskRequest × List WriteTaskRequest :=
  getWriteBatchAux maxTaskBatchSize ch reqs

/-- CreateTaskInfo as assembled in the writer loop: the allocated taskID plus
the request's execution and payload. -/
structure CreateTaskInfo where
  taskID : Int
  executionRef : Nat
  dataRef : Nat
deriving DecidableEq, Repr

/-- The CreateTasks persistence request issued for a batch. -/
structure CreateTasksRequest where
  tasks : List CreateTaskInfo
  rangeID : Int
deriving DecidableEq, Repr

/-- The tasks slice built by the loop over reqs: tasks[i] pairs taskIDs[i]
with reqs[i]. -/
def batchTasks (reqs : List WriteTaskRequest) (taskIDs : List Int) :
    List CreateTaskInfo :=
  (reqs.zip taskIDs).map
    (fun p => { taskID := p.2, executionRef := p.1.executionRef, dataRef := p.1.taskInfoRef })

/-- The rangeID accumulator of the loop: starts at 0 and is replaced whenever
a request carries a strictly larger rangeID (service.go lines 211-213). -/
def batchRangeID (reqs : List WriteTaskRequest) : Int :=
  reqs.foldl (fun acc r => if r.rangeID > acc then r.rangeID else acc) 0

/-- The maxReadLevel accumulator of the loop: starts at 0 and is overwritten
with taskIDs[i] on every iteration, so it ends as the last allocated taskID
(service.go line 214). -/
def batchMaxReadLevel (reqs : List WriteTaskRequest) (taskIDs : List Int) : Int :=
  (reqs.zip taskIDs).foldl (fun _ p => p.2) 0

/-- sendWriteResponse (service.go lines 259-269): sends one response, built
from the shared error and shared persistence response, to every request's
response channel, in batch order. -/
def sendWriteResponse (reqs : List WriteTaskRequest) (err : Option WriterError)
    (persistenceResponse : Option Nat) : List (Nat × WriteTaskResponse) :=
  reqs.map (fun r => (r.responseCh, { err := err, persistenceResponse := persistenceResponse }))

/-- Everything one iteration of the appendCh arm of taskWriterLoop produces:
the successor writer state, the responses delivered (channel id paired with
response, in send order), and the CreateTasks call issued, if any. -/
structure BatchStepResult where
  state : TaskWriterState
  responses : List (Nat × WriteTaskResponse)
  createCall : Option CreateTasksRequest
deriving DecidableEq, Repr

/-- One iteration of the `request := <-w.appendCh` arm of taskWriterLoop
(service.go lines 188-239). `request` is the message just received, `ch` the
rest of the channel, `maxRL` the current maxReadLevel. The two persistence
collaborators are oracles: `taskIDsResult` stands for tlMgr.newTaskIDs
(a list of freshly allocated ids, or an error), `createResult` for
taskManager.CreateTasks (an opaque response ref, or an error code).
On a newTaskIDs error the loop answers every batched request with that error
and continues. Otherwise it builds the tasks slice, the max-accumulated
rangeID and the running maxReadLevel, issues CreateTasks, stores the new
maxReadLevel when positive — note: whether or not CreateTasks failed — and
sends the shared outcome to all waiters. -/
def taskWriterBatchStep (request : WriteTaskRequest) (ch : List WriteTaskRequest)
    (maxRL : Int) (taskIDsResult : Except Nat (List Int))
    (createResult : Except Nat Nat) : BatchStepResult :=
  let drained := getWriteBatch ch [request]
  let reqs := drained.1
  let chAfter := drained.2
  match taskIDsResult with
  | Except.error e =>
      { state := { appendCh := chAfter, maxReadLevel := maxRL, closed := false },
        responses := sendWriteResponse reqs (some (WriterError.store e)) none,
        createCall := none }
  | Except.ok taskIDs =>
      let tasks := batchTasks reqs taskIDs
      let rangeID := batchRangeID reqs
      let mrl := batchMaxReadLevel reqs taskIDs
      let call : CreateTasksRequest := { tasks := tasks, rangeID := rangeID }
      let newMaxRL := if mrl > 0 then mrl else maxRL
      match createResult with
      | Except.ok resp =>
          { state := { appendCh := chAfter, maxReadLevel := newMaxRL, closed := false },
            responses := sendWriteResponse reqs none (some resp),
            createCall := some call }
      | Except.error e =>
          { state := { appendCh := chAfter, maxReadLevel := newMaxRL, closed := false },
            responses := sendWriteResponse reqs (some (WriterError.store e)) none,
            createCall := some call }

/-- The shutdownCh arm of taskWriterLoop (service.go lines 240-241) together
with the deferred close of appendCh (line 183): the loop breaks, the channel
is closed after the loop exits, no pending request is drained and no
response is delivered to any of them. -/
def taskWriterShutdownStep (st : TaskWriterState) :
    TaskWriterState × List (Nat × WriteTaskResponse) :=
  ({ st with closed := true }, [])

/-- The maximum of the rangeID values carried by the requests of a non-empty
batch. This follows the spec's words (used to compare against the code's
batchRangeID accumulator). -/
def maxCarriedRangeID (r0 : WriteTaskRequest) (rs : List WriteTaskRequest) : Int :=
  rs.foldl (fun a r => max a r.rangeID) r0.rangeID

/-! ## Matching Service start/stop (src/service/matching/service.go lines 29-79) -/

/-- State of the matching Service relevant to Start/Stop: whether Start is
currently blocked at its `<-s.stopC` receive (line 68; stopC is unbuffered,
created in NewService line 39), and whether the service is still running. -/
structure MatchingServiceState where
  startWaitingOnStopC : Bool
  running : Bool
deriving DecidableEq, Repr

/-- Possible outcomes of a send statement on an unbuffered channel. -/
inductive SendOutcome where
  | delivered : SendOutcome
  | discarded : SendOutcome
  | blocked : SendOutcome
deriving DecidableEq, Repr

/-- Go semantics of `select { case ch <- v: ... default: ... }` on an
unbuffered channel: the send is taken exactly when a receiver is currently
blocked on the channel; otherwise the default branch runs and the value is
dropped. The blocked outcome is unreachable for this statement form (it is
what a bare unbuffered send without a default would do). -/
def selectSendDefault (receiverWaiting : Bool) : SendOutcome :=
  if receiverWaiting then SendOutcome.delivered else SendOutcome.discarded

/-- Service.Stop (service.go lines 73-79): a non-blocking send on stopC.
When Start is parked at the receive, the rendezvous happens, Start resumes
past line 68 and the service shuts down; otherwise the signal is dropped on
the default branch and the state is unchanged. -/
def serviceStop (st : MatchingServiceState) : MatchingServiceState × SendOutcome :=
  match selectSendDefault st.startWaitingOnStopC with
  | SendOutcome.delivered =>
      ({ startWaitingOnStopC := false, running := false }, SendOutcome.delivered)
  | SendOutcome.discarded => (st, SendOutcome.discarded)
  | SendOutcome.blocked => (st, SendOutcome.blocked)

/-! ## Cassandra visibility persistence (src/unnamed/part_000) -/

/-- Fixed domain partition value (part_000 line 36). -/
def domainPartition : Nat := 0

/-- Default TTL for rows of the closed-executions table (part_000 line 37). -/
def defaultCloseTTLSeconds : Int := 86400

/-- A RecordWorkflowExecutionClosedRequest; opaque identifiers stand for the
UUID/state fields, timestamps are int64 nanos. -/
structure RecordWorkflowExecutionClosedRequest where
  domainUUID : Nat
  workflowID : Nat
  runID : Nat
  startTimestamp : Int
  closeTimestamp : Int
  workflowTypeName : Nat
  status : Nat
  retentionSeconds : Int
deriving DecidableEq, Repr

/-- The CQL statements the visibility layer enqueues; their fields mirror the
bind arguments of the two templates used by RecordWorkflowExecutionClosed.
Timestamps keep their int64-nano value (UnixNanoToCQLTimestamp is an
injective re-encoding that the embedding leaves implicit). -/
inductive CqlStatement where
  | deleteOpenExecution (domainUUID : Nat) (domainPart : Nat)
      (startTime : Int) (runID : Nat) : CqlStatement
  | insertClosedExecution (domainUUID : Nat) (domainPart : Nat)
      (workflowID : Nat) (runID : Nat) (startTime : Int) (closeTime : Int)
      (workflowTypeName : Nat) (status : Nat) (ttl : Int) : CqlStatement
deriving DecidableEq, Repr

/-- Kind of a gocql batch. -/
inductive BatchKind where
  | logged : BatchKind
  | unlogged : BatchKind
deriving DecidableEq, Repr

/-- A gocql batch: its kind, its statements in enqueue order, and its write
timestamp. -/
structure CqlBatch where
  kind : BatchKind
  statements : List CqlStatement
  writeTimestamp : Int
deriving DecidableEq, Repr

/-- RecordWorkflowExecutionClosed (part_000 lines 157-197): builds one logged
batch holding first the delete from open_executions keyed by
(domainUUID, domainPartition, startTime, runID), then the insert into
closed_executions whose TTL is the request's RetentionSeconds, defaulted to
defaultCloseTTLSeconds when zero; the batch timestamp is the close time. -/
def RecordWorkflowExecutionClosed (request : RecordWorkflowExecutionClosedRequest) :
    CqlBatch :=
  let retention : Int :=
    if request.retentionSeconds = 0 then defaultCloseTTLSeconds
    else request.retentionSeconds
  { kind := BatchKind.logged,
    statements :=
      [CqlStatement.deleteOpenExecution request.domainUUID domainPartition
          request.startTimestamp request.runID,
       CqlStatement.insertClosedExecution request.domainUUID domainPartition
          request.workflowID request.runID request.startTimestamp
          request.closeTimestamp request.workflowTypeName request.status
          retention],
    writeTimestamp := request.closeTimestamp }

/-- The TTL bound into the closed-executions insert of a batch, if the batch
has exactly one such insert statement. -/
def closedInsertTTL (b : CqlBatch) : Option Int :=
  match b.statements.filterMap
      (fun st => match st with
        | CqlStatement.insertClosedExecution _ _ _ _ _ _ _ _ ttl => some ttl
        | _ => none) with
  | [ttl] => some ttl
  | _ => none

/-- Whether a batch deletes the open-executions row keyed by the given
domain, start time and run id. -/
def deletesOpenRow (b : CqlBatch) (domainUUID : Nat) (startTime : Int)
    (runID : Nat) : Bool :=
  b.statements.any
    (fun st => match st with
      | CqlStatement.deleteOpenExecution d p s r =>
          d = domainUUID && p = domainPartition && s = startTime && r = runID
      | _ => false)

/-! ## History metricClient wrappers (src/common/service/config/log.go) -/

/-- Metric scope identifiers for the history client operations, one per
wrapper (the numeric values are nominal; only their identity matters). -/
def HistoryClientStartWorkflowExecutionScope : Nat := 0

def HistoryClientGetWorkflowExecutionNextEventIDScope : Nat := 1

def HistoryClientRecordDecisionTaskStartedScope : Nat := 2

def HistoryClientRecordActivityTaskStartedScope : Nat := 3

def HistoryClientRespondDecisionTaskCompletedScope : Nat := 4

def HistoryClientRespondActivityTaskCompletedScope : Nat := 5

def HistoryClientRespondActivityTaskFailedScope : Nat := 6

def HistoryClientRespondActivityTaskCanceledScope : Nat := 7

def HistoryClientRecordActivityTaskHeartbeatScope : Nat := 8

def HistoryClientRequestCancelWorkflowExecutionScope : Nat := 9

def HistoryClientSignalWorkflowExecutionScope : Nat := 10

def HistoryClientTerminateWorkflowExecutionScope : Nat := 11

def HistoryClientScheduleDecisionTaskScope : Nat := 12

def HistoryClientRecordChildExecutionCompletedScope : Nat := 13

/-- Metric counter/timer identifiers. -/
def CadenceRequests : Nat := 0

def CadenceLatency : Nat := 1

def CadenceFailures : Nat := 2

/-- A metric emission: which scope and which counter/timer it touched. -/
structure MetricEvent where
  scope : Nat
  metric : Nat
deriving DecidableEq, Repr

/-- The metrics client is modelled as an append-only log of emissions. -/
abbrev MetricsLog : Type := List MetricEvent

/-- IncCounter: appends one emission to the log. -/
def incCounter (log : MetricsLog) (scope : Nat) (metric : Nat) : MetricsLog :=
  log ++ [{ scope := scope, metric := metric }]

/-- StartTimer followed by sw.Stop(): records one latency emission. -/
def recordLatency (log : MetricsLog) (scope : Nat) : MetricsLog :=
  log ++ [{ scope := scope, metric := CadenceLatency }]

/-- A Go (resp, err) pair returned by a history client call. -/
structure CallResult (ρ : Type) where
  resp : Option ρ
  err : Option Nat
deriving DecidableEq, Repr

namespace metricClient

/-- Shared body of the response-returning wrappers: count a request, time the
underlying call, count a failure when the error is non-nil, and return the
underlying result unchanged. Each Go wrapper instantiates this with its
scope. -/
def wrapCall {Ctx Req ρ : Type} (scope : Nat)
    (client : Ctx → Req → CallResult ρ) (log : MetricsLog)
    (context : Ctx) (request : Req) : CallResult ρ × MetricsLog :=
  let log1 := incCounter log scope CadenceRequests
  let r := client context request
  let log2 := recordLatency log1 scope
  let log3 :=
    if r.err.isSome then incCounter log2 scope CadenceFailures else log2
  (r, log3)

/-- Shared body of the error-only wrappers. -/
def wrapErrCall {Ctx Req : Type} (scope : Nat)
    (client : Ctx → Req → Option Nat) (log : MetricsLog)
    (context : Ctx) (request : Req) : Option Nat × MetricsLog :=
  let log1 := incCounter log scope CadenceRequests
  let err := client context request
  let log2 := recordLatency log1 scope
  let log3 :=
    if err.isSome then incCounter log2 scope CadenceFailures else log2
  (err, log3)

/-- metricClient.StartWorkflowExecution (log.go lines 143-156). -/
def StartWorkflowExecution {Ctx Req ρ : Type} (client : Ctx → Req → CallResult ρ)
    (log : MetricsLog) (context : Ctx) (request : Req) : CallResult ρ × MetricsLog :=
  wrapCall HistoryClientStartWorkflowExecutionScope client log context request

/-- metricClient.GetWorkflowExecutionNextEventID (log.go lines 158-171). -/
def GetWorkflowExecutionNextEventID {Ctx Req ρ : Type}
    (client : Ctx → Req → CallResult ρ) (log : MetricsLog)
    (context : Ctx) (request : Req) : CallResult ρ × MetricsLog :=
  wrapCall HistoryClientGetWorkflowExecutionNextEventIDScope client log context request

/-- metricClient.RecordDecisionTaskStarted (log.go lines 173-186). -/
def RecordDecisionTaskStarted {Ctx Req ρ : Type}
    (client : Ctx → Req → CallResult ρ) (log : MetricsLog)
    (context : Ctx) (request : Req) : CallResult ρ × MetricsLog :=
  wrapCall HistoryClientRecordDecisionTaskStartedScope client log context request

/-- metricClient.RecordActivityTaskStarted (log.go lines 188-201). -/
def RecordActivityTaskStarted {Ctx Req ρ : Type}
    (client : Ctx → Req → CallResult ρ) (log : MetricsLog)
    (context : Ctx) (request : Req) : CallResult ρ × MetricsLog :=
  wrapCall HistoryClientRecordActivityTaskStartedScope client log context request

/-- metricClient.RespondDecisionTaskCompleted (log.go lines 203-216). -/
def RespondDecisionTaskCompleted {Ctx Req : Type}
    (client : Ctx → Req → Option Nat) (log : MetricsLog)
    (context : Ctx) (request : Req) : Option Nat × MetricsLog :=
  wrapErrCall HistoryClientRespondDecisionTaskCompletedScope client log context request

/-- metricClient.RespondActivityTaskCompleted (log.go lines 218-231). -/
def RespondActivityTaskCompleted {Ctx Req : Type}
    (client : Ctx → Req → Option Nat) (log : MetricsLog)
    (context : Ctx) (request : Req) : Option Nat × MetricsLog :=
  wrapErrCall HistoryClientRespondActivityTaskCompletedScope client log context request

/-- metricClient.RespondActivityTaskFailed (log.go lines 233-246). -/
def RespondActivityTaskFailed {Ctx Req : Type}
    (client : Ctx → Req → Option Nat) (log : MetricsLog)
    (context : Ctx) (request : Req) : Option Nat × MetricsLog :=
  wrapErrCall HistoryClientRespondActivityTaskFailedScope client log context request

/-- metricClient.RespondActivityTaskCanceled (log.go lines 248-261). -/
def RespondActivityTaskCanceled {Ctx Req : Type}
    (client : Ctx → Req → Option Nat) (log : MetricsLog)
    (context : Ctx) (request : Req) : Option Nat × MetricsLog :=
  wrapErrCall HistoryClientRespondActivityTaskCanceledScope client log context request

/-- metricClient.RecordActivityTaskHeartbeat (log.go lines 263-276). -/
def RecordActivityTaskHeartbeat {Ctx Req ρ : Type}
    (client : Ctx → Req → CallResult ρ) (log : MetricsLog)
    (context : Ctx) (request : Req) : CallResult ρ × MetricsLog :=
  wrapCall HistoryClientRecordActivityTaskHeartbeatScope client log context request

/-- metricClient.RequestCancelWorkflowExecution (log.go lines 278-291). -/
def RequestCancelWorkflowExecution {Ctx Req : Type}
    (client : Ctx → Req → Option Nat) (log : MetricsLog)
    (context : Ctx) (request : Req) : Option Nat × MetricsLog :=
  wrapErrCall HistoryClientRequestCancelWorkflowExecutionScope client log context request

/-- metricClient.SignalWorkflowExecution (log.go lines 293-306). -/
def SignalWorkflowExecution {Ctx Req : Type}
    (client : Ctx → Req → Option Nat) (log : MetricsLog)
    (context : Ctx) (request : Req) : Option Nat × MetricsLog :=
  wrapErrCall HistoryClientSignalWorkflowExecutionScope client log context request

/-- metricClient.TerminateWorkflowExecution (log.go lines 308-321). -/
def TerminateWorkflowExecution {Ctx Req : Type}
    (client : Ctx → Req → Option Nat) (log : MetricsLog)
    (context : Ctx) (request : Req) : Option Nat × MetricsLog :=
  wrapErrCall HistoryClientTerminateWorkflowExecutionScope client log context request

/-- metricClient.ScheduleDecisionTask (log.go lines 323-336). -/
def ScheduleDecisionTask {Ctx Req : Type}
    (client : Ctx → Req → Option Nat) (log : MetricsLog)
    (context : Ctx) (request : Req) : Option Nat × MetricsLog :=
  wrapErrCall HistoryClientScheduleDecisionTaskScope client log context request

/-- metricClient.RecordChildExecutionCompleted (log.go lines 338-351). -/
def RecordChildExecutionCompleted {Ctx Req : Type}
    (client : Ctx → Req → Option Nat) (log : MetricsLog)
    (context : Ctx) (request : Req) : Option Nat × MetricsLog :=
  wrapErrCall HistoryClientRecordChildExecutionCompletedScope client log context request

end metricClient

/-! ## Timer queue processor retry protocol -/

/-- Outcome of one conditional UpdateWorkflowExecution attempt as seen by the
timer queue processor. -/
inductive UpdateAttemptOutcome where
  | committed : UpdateAttemptOutcome
  | versionMismatch : UpdateAttemptOutcome
deriving DecidableEq, Repr

/-- Per-workflow state the timer firing cycle mutates: the number of timeout
events appended to history, the processor's timerFiredCount metric, and
whether the fired timer task has been deleted from the index. -/
structure TimerFireState where
  timeoutEvents : Nat
  timerFiredCount : Nat
  taskDeleted : Bool
deriving DecidableEq, Repr

/-- Modelled from the spec: the timer queue processor implementation is not
part of the source tree (src/unnamed/part_001 only exercises it through
TestTimerUpdateTimesOut). Spec section 4.5 step 3 and section 7: on firing a
due timer the processor loads mutable state, stages exactly one timeout
event, and commits via the conditional UpdateWorkflowExecution; if the
update fails with a version mismatch it re-reads state and retries, a
bounded number of times; a successful commit appends the staged event,
increments timerFiredCount once, and deletes the timer task. The outcomes
list is the oracle giving each attempt's result; the budget bounds the
retries, and exhausting either abandons the cycle with no effect. -/
def fireTimerTask : Nat → List UpdateAttemptOutcome → TimerFireState → TimerFireState
  | 0, _, st => st
  | Nat.succ _, [], st => st
  | Nat.succ budget, outcome :: rest, st =>
      match outcome with
      | UpdateAttemptOutcome.committed =>
          { timeoutEvents := st.timeoutEvents + 1,
            timerFiredCount := st.timerFiredCount + 1,
            taskDeleted := true }
      | UpdateAttemptOutcome.versionMismatch =>
          fireTimerTask budget rest st

/-! ## Helper lemmas -/

/-- A sample request used for concrete evaluations. -/
def reqA : WriteTaskRequest :=
  { executionRef := 1, taskInfoRef := 2, rangeID := 3, responseCh := 4 }

theorem max_eq_ite (a x : Int) : (if x > a then x else a) = max a x := by
  rcases le_or_lt x a with h | h
  · simp [not_lt.mpr h, max_eq_left h]
  · simp [h, max_eq_right h.le]

theorem foldl_rangeID_max (l : List WriteTaskRequest) (a : Int) :
    l.foldl (fun acc r => if r.rangeID > acc then r.rangeID else acc) a
      = l.foldl (fun acc r => max acc r.rangeID) a := by
  induction l generalizing a with
  | nil => rfl
  | cons x xs ih => simp only [List.foldl_cons, max_eq_ite, ih]

theorem foldl_max_init (l : List WriteTaskRequest) (a b : Int) :
    l.foldl (fun acc r => max acc r.rangeID) (max a b)
      = max a (l.foldl (fun acc r => max acc r.rangeID) b) := by
  induction l generalizing b with
  | nil => rfl
  | cons x xs ih => simp only [List.foldl_cons, max_assoc, ih]

theorem le_foldl_max (l : List WriteTaskRequest) (b : Int) :
    b ≤ l.foldl (fun acc r => max acc r.rangeID) b := by
  induction l generalizing b with
  | nil => simp
  | cons x xs ih => exact le_trans (le_max_left _ _) (ih _)

theorem mem_le_foldl_max (l : List WriteTaskRequest) :
    ∀ (b : Int) (r : WriteTaskRequest), r ∈ l →
      r.rangeID ≤ l.foldl (fun acc r => max acc r.rangeID) b := by
  induction l with
  | nil => intro b r hr; cases hr
  | cons x xs ih =>
    intro b r hr
    rcases List.mem_cons.mp hr with hx | hxs
    · subst hx
      exact le_trans (le_max_right b r.rangeID) (le_foldl_max xs _)
    · exact ih _ r hxs

theorem batchRangeID_cons_eq (r0 : WriteTaskRequest) (rs : List WriteTaskRequest) :
    batchRangeID (r0 :: rs) = max 0 (maxCarriedRangeID r0 rs) := by
  unfold batchRangeID maxCarriedRangeID
  rw [List.foldl_cons, foldl_rangeID_max, max_eq_ite, foldl_max_init]

theorem batchRangeID_mem_le (reqs : List WriteTaskRequest) (r : WriteTaskRequest)
    (hr : r ∈ reqs) : r.rangeID ≤ batchRangeID reqs := by
  unfold batchRangeID
  rw [foldl_rangeID_max]
  exact mem_le_foldl_max reqs 0 r hr

theorem taskWriterBatchStep_createCall_rangeID (request : WriteTaskRequest)
    (ch : List WriteTaskRequest) (maxRL : Int) (taskIDs : List Int)
    (createResult : Except Nat Nat) (cc : CreateTasksRequest)
    (hcc : (taskWriterBatchStep request ch maxRL (Except.ok taskIDs)
        createResult).createCall = some cc) :
    cc.rangeID = batchRangeID (getWriteBatch ch [request]).1 ∧
    cc.tasks = batchTasks (getWriteBatch ch [request]).1 taskIDs := by
  cases createResult with
  | ok resp =>
    simp only [taskWriterBatchStep, Option.some.injEq] at hcc
    subst hcc
    exact ⟨rfl, rfl⟩
  | error e =>
    simp only [taskWriterBatchStep, Option.some.injEq] at hcc
    subst hcc
    exact ⟨rfl, rfl⟩

theorem sendWriteResponse_uniform (reqs : List WriteTaskRequest)
    (err : Option WriterError) (presp : Option Nat) :
    ∀ p ∈ sendWriteResponse reqs err presp,
    ∀ q ∈ sendWriteResponse reqs err presp, p.2 = q.2 := by
  intro p hp q hq
  rcases List.mem_map.mp hp with ⟨rp, _, hpe⟩
  rcases List.mem_map.mp hq with ⟨rq, _, hqe⟩
  rw [← hpe, ← hqe]

theorem getWriteBatchAux_length_le (n : Nat) (ch reqs : List WriteTaskRequest) :
    (getWriteBatchAux n ch reqs).1.length ≤ reqs.length + n := by
  induction n generalizing ch reqs with
  | zero => simp [getWriteBatchAux]
  | succ n ih =>
    cases ch with
    | nil => simp [getWriteBatchAux]
    | cons r rest =>
      have h := ih rest (reqs ++ [r])
      simp only [getWriteBatchAux]
      simp only [List.length_append, List.length_singleton] at h
      omega

/-! ## Claim theorems -/

/-- C1: a call to appendTask with the submit channel (capacity
outstandingTaskAppendsThreshold = 250) full returns the service-busy error
immediately, leaving the channel untouched; with room, the request is
enqueued (the caller then blocks only on its response channel). -/
theorem appendTask_backpressure (st : TaskWriterState) (req : WriteTaskRequest) :
    outstandingTaskAppendsThreshold = 250 ∧
    (st.appendCh.length ≥ outstandingTaskAppendsThreshold →
      appendTask st req = (st, AppendTaskOutcome.rejected createServiceBusyError)) ∧
    (st.appendCh.length < outstandingTaskAppendsThreshold →
      appendTask st req =
        ({ st with appendCh := st.appendCh ++ [req] }, AppendTaskOutcome.enqueued)) := by
  refine ⟨rfl, ?_, ?_⟩
  · intro h
    simp [appendTask, Nat.not_lt.mpr h]
  · intro h
    simp [appendTask, h]

/-- Witness for C1: a channel holding 250 requests rejects the next append
with service-busy; an empty channel accepts it. -/
theorem appendTask_backpressure_witness :
    appendTask { appendCh := List.replicate 250 reqA, maxReadLevel := 0, closed := false } reqA
      = ({ appendCh := List.replicate 250 reqA, maxReadLevel := 0, closed := false },
          AppendTaskOutcome.rejected createServiceBusyError) ∧
    appendTask { appendCh := [], maxReadLevel := 0, closed := false } reqA
      = ({ appendCh := [reqA], maxReadLevel := 0, closed := false },
          AppendTaskOutcome.enqueued) := by
  constructor
  · exact (appendTask_backpressure
      { appendCh := List.replicate 250 reqA, maxReadLevel := 0, closed := false } reqA).2.1
      (by rw [List.length_replicate]; decide)
  · have h := (appendTask_backpressure
      { appendCh := [], maxReadLevel := 0, closed := false } reqA).2.2
      (by simp [outstandingTaskAppendsThreshold])
    simpa using h

/-- C2 counterexample: a batch of one request whose CreateTasks call fails
with a store error still advances the published maxReadLevel to the failed
taskID 5, so GetMaxReadLevel does advance past taskIDs whose CreateTasks
call failed, contradicting the claim. -/
theorem maxReadLevel_failed_create_counterexample :
    (taskWriterBatchStep { executionRef := 1, taskInfoRef := 2, rangeID := 1, responseCh := 7 }
        [] 0 (Except.ok [5]) (Except.error 9)).responses
      = [(7, { err := some (WriterError.store 9), persistenceResponse := none })] ∧
    GetMaxReadLevel (taskWriterBatchStep
        { executionRef := 1, taskInfoRef := 2, rangeID := 1, responseCh := 7 }
        [] 0 (Except.ok [5]) (Except.error 9)).state = 5 := by
  constructor <;> rfl

/-- C2 amended: the writer publishes maxReadLevel (the running accumulator,
ending at the last allocated taskID) after the CreateTasks call completes,
whether it succeeded or failed: the published level is identical for a
failing and a succeeding CreateTasks outcome, and equals the accumulator
whenever it is positive, the prior level otherwise. -/
theorem maxReadLevel_published_after_completion (request : WriteTaskRequest)
    (ch : List WriteTaskRequest) (maxRL : Int) (taskIDs : List Int)
    (e resp : Nat) :
    (GetMaxReadLevel (taskWriterBatchStep request ch maxRL (Except.ok taskIDs)
          (Except.error e)).state
       = GetMaxReadLevel (taskWriterBatchStep request ch maxRL (Except.ok taskIDs)
          (Except.ok resp)).state) ∧
    (GetMaxReadLevel (taskWriterBatchStep request ch maxRL (Except.ok taskIDs)
          (Except.error e)).state
       = if batchMaxReadLevel (getWriteBatch ch [request]).1 taskIDs > 0
         then batchMaxReadLevel (getWriteBatch ch [request]).1 taskIDs
         else maxRL) := by
  constructor <;> rfl

/-- C3 counterexample: a batch whose single request carries rangeID -1 is
committed with rangeID 0 (the accumulator's initial value), not with the
maximum carried rangeID -1, so the equality part of the claim fails. -/
theorem batch_rangeID_counterexample :
    batchRangeID [{ executionRef := 1, taskInfoRef := 2, rangeID := -1, responseCh := 7 }] = 0 ∧
    maxCarriedRangeID { executionRef := 1, taskInfoRef := 2, rangeID := -1, responseCh := 7 } [] = -1 ∧
    (taskWriterBatchStep { executionRef := 1, taskInfoRef := 2, rangeID := -1, responseCh := 7 }
        [] 0 (Except.ok [5]) (Except.ok 0)).createCall
      = some { tasks := [{ taskID := 5, executionRef := 1, dataRef := 2 }], rangeID := 0 } ∧
    (0 : Int) ≠ (-1 : Int) := by
  refine ⟨rfl, rfl, rfl, by decide⟩

/-- C3 amended: the rangeID passed to CreateTasks is the maximum of 0 and
the rangeID values carried by the batch (hence it equals the maximum carried
rangeID whenever that maximum is nonnegative), and it is never lower than
any request's carried rangeID. -/
theorem batch_rangeID_is_max (request : WriteTaskRequest) (ch : List WriteTaskRequest)
    (maxRL : Int) (taskIDs : List Int) (createResult : Except Nat Nat)
    (cc : CreateTasksRequest)
    (hcc : (taskWriterBatchStep request ch maxRL (Except.ok taskIDs)
        createResult).createCall = some cc) :
    cc.rangeID = batchRangeID (getWriteBatch ch [request]).1 ∧
    (∀ r ∈ (getWriteBatch ch [request]).1, r.rangeID ≤ cc.rangeID) ∧
    (∀ r0 rs, (getWriteBatch ch [request]).1 = r0 :: rs →
        cc.rangeID = max 0 (maxCarriedRangeID r0 rs)) := by
  have h := (taskWriterBatchStep_createCall_rangeID request ch maxRL taskIDs
    createResult cc hcc).1
  refine ⟨h, ?_, ?_⟩
  · intro r hr
    rw [h]
    exact batchRangeID_mem_le _ r hr
  · intro r0 rs hbatch
    rw [h, hbatch, batchRangeID_cons_eq]

/-- Witness for C3: for the singleton batch with carried rangeID 3, the
committed CreateTasks call carries rangeID 3 = max 0 3, and the carried
rangeID does not exceed it. -/
theorem batch_rangeID_is_max_witness :
    ({ tasks := [{ taskID := 5, executionRef := 1, dataRef := 2 }], rangeID := 3 }
        : CreateTasksRequest).rangeID
      = batchRangeID (getWriteBatch [] [reqA]).1 ∧
    reqA.rangeID ≤ ({ tasks := [{ taskID := 5, executionRef := 1, dataRef := 2 }], rangeID := 3 }
        : CreateTasksRequest).rangeID := by
  have h := batch_rangeID_is_max reqA [] 0 [5] (Except.ok 0)
    { tasks := [{ taskID := 5, executionRef := 1, dataRef := 2 }], rangeID := 3 } (by rfl)
  exact ⟨h.1, h.2.1 reqA (by simp [getWriteBatch, getWriteBatchAux, maxTaskBatchSize])⟩

/-- C4 counterexample: with 150 requests queued behind the first one, the
loop drains 100 additional requests and submits a batch of 101 requests,
exceeding maxTaskBatchSize = 100, contradicting the claim. -/
theorem batch_size_counterexample :
    (getWriteBatch (List.replicate 150 reqA) [reqA]).1.length = 101 ∧
    ¬ (getWriteBatch (List.replicate 150 reqA) [reqA]).1.length ≤ maxTaskBatchSize := by
  constructor
  · rfl
  · intro h
    have h101 : (getWriteBatch (List.replicate 150 reqA) [reqA]).1.length = 101 := rfl
    rw [h101] at h
    exact absurd h (by decide)

/-- C4 amended: in every iteration the writer drains at most maxTaskBatchSize
(100) additional requests without blocking after the first, so every batch
submitted to CreateTasks contains at most maxTaskBatchSize + 1 = 101
requests. -/
theorem batch_size_bound (request : WriteTaskRequest) (ch : List WriteTaskRequest)
    (maxRL : Int) (taskIDsResult : Except Nat (List Int))
    (createResult : Except Nat Nat) :
    maxTaskBatchSize = 100 ∧
    (getWriteBatch ch [request]).1.length ≤ maxTaskBatchSize + 1 ∧
    (∀ cc, (taskWriterBatchStep request ch maxRL taskIDsResult
        createResult).createCall = some cc →
      cc.tasks.length ≤ maxTaskBatchSize + 1) := by
  have hlen : (getWriteBatch ch [request]).1.length ≤ maxTaskBatchSize + 1 := by
    have h' := getWriteBatchAux_length_le maxTaskBatchSize ch [request]
    simp only [List.length_singleton] at h'
    unfold getWriteBatch
    omega
  refine ⟨rfl, hlen, ?_⟩
  intro cc hcc
  cases taskIDsResult with
  | error e => simp [taskWriterBatchStep] at hcc
  | ok taskIDs =>
    have htasks := (taskWriterBatchStep_createCall_rangeID request ch maxRL taskIDs
      createResult cc hcc).2
    rw [htasks]
    unfold batchTasks
    rw [List.length_map]
    calc (List.zip (getWriteBatch ch [request]).1 taskIDs).length
        ≤ (getWriteBatch ch [request]).1.length := by
          rw [List.length_zip]; exact Nat.min_le_left _ _
      _ ≤ maxTaskBatchSize + 1 := hlen

/-- Witness for C4: the amended bound applied to the singleton batch drained
from an empty channel, whose CreateTasks call carries one task. -/
theorem batch_size_bound_witness :
    ({ tasks := [{ taskID := 5, executionRef := 1, dataRef := 2 }], rangeID := 3 }
        : CreateTasksRequest).tasks.length ≤ maxTaskBatchSize + 1 := by
  exact (batch_size_bound reqA [] 0 (Except.ok [5]) (Except.ok 0)).2.2
    { tasks := [{ taskID := 5, executionRef := 1, dataRef := 2 }], rangeID := 3 } (by rfl)

/-- C5: two consecutive conditional-update attempts while a decision
StartToClose timer fires — the first fails with a version mismatch, the
processor re-reads and retries, the second commits — produce exactly one
timeout event and leave timerFiredCount at 1; the failed first attempt alone
produces no event and no increment. -/
theorem timer_retry_fires_once :
    fireTimerTask 2
        [UpdateAttemptOutcome.versionMismatch, UpdateAttemptOutcome.committed]
        { timeoutEvents := 0, timerFiredCount := 0, taskDeleted := false }
      = { timeoutEvents := 1, timerFiredCount := 1, taskDeleted := true } ∧
    fireTimerTask 1 [UpdateAttemptOutcome.versionMismatch]
        { timeoutEvents := 0, timerFiredCount := 0, taskDeleted := false }
      = { timeoutEvents := 0, timerFiredCount := 0, taskDeleted := false } := by
  constructor <;> rfl

/-- C6 counterexample: with one request pending on the submit channel, the
shutdown step delivers no response at all — in particular no shutdown error
reaches response channel 7 — contradicting the claim that every pending
request receives a shutdown error. -/
theorem shutdown_no_response_counterexample :
    (taskWriterShutdownStep
        { appendCh := [{ executionRef := 1, taskInfoRef := 2, rangeID := 3, responseCh := 7 }],
          maxReadLevel := 0, closed := false }).2 = [] ∧
    (taskWriterShutdownStep
        { appendCh := [{ executionRef := 1, taskInfoRef := 2, rangeID := 3, responseCh := 7 }],
          maxReadLevel := 0, closed := false }).1
      = { appendCh := [{ executionRef := 1, taskInfoRef := 2, rangeID := 3, responseCh := 7 }],
          maxReadLevel := 0, closed := true } ∧
    ¬ ∃ resp, (7, resp) ∈ (taskWriterShutdownStep
        { appendCh := [{ executionRef := 1, taskInfoRef := 2, rangeID := 3, responseCh := 7 }],
          maxReadLevel := 0, closed := false }).2 := by
  refine ⟨rfl, rfl, ?_⟩
  rintro ⟨resp, h⟩
  simp [taskWriterShutdownStep] at h

/-- C6 amended: on shutdown the writer loop exits without draining the
submit channel — pending requests receive no response — and the channel is
marked closed only by the shutdown step, after the loop exits; a batch
iteration (an in-flight batch) never closes the channel. -/
theorem shutdown_closes_after_loop_exit (st : TaskWriterState)
    (request : WriteTaskRequest) (ch : List WriteTaskRequest) (maxRL : Int)
    (taskIDsResult : Except Nat (List Int)) (createResult : Except Nat Nat) :
    (taskWriterShutdownStep st).2 = [] ∧
    (taskWriterShutdownStep st).1.closed = true ∧
    (taskWriterShutdownStep st).1.appendCh = st.appendCh ∧
    (taskWriterBatchStep request ch maxRL taskIDsResult
        createResult).state.closed = false := by
  refine ⟨rfl, rfl, rfl, ?_⟩
  cases taskIDsResult with
  | error e => rfl
  | ok taskIDs => cases createResult <;> rfl

/-- C7: RecordWorkflowExecutionClosed builds one logged batch whose
closed-executions insert carries TTL RetentionSeconds, defaulted to 86400
when RetentionSeconds is zero, and which also deletes the matching
open-executions row. -/
theorem recordClosed_ttl_and_batch (request : RecordWorkflowExecutionClosedRequest) :
    closedInsertTTL (RecordWorkflowExecutionClosed request)
      = some (if request.retentionSeconds = 0 then 86400
              else request.retentionSeconds) ∧
    deletesOpenRow (RecordWorkflowExecutionClosed request) request.domainUUID
      request.startTimestamp request.runID = true ∧
    (RecordWorkflowExecutionClosed request).kind = BatchKind.logged := by
  refine ⟨?_, ?_, rfl⟩
  · unfold closedInsertTTL RecordWorkflowExecutionClosed
    by_cases h : request.retentionSeconds = 0 <;>
      simp [h, defaultCloseTTLSeconds, List.filterMap]
  · unfold deletesOpenRow RecordWorkflowExecutionClosed
    simp [List.any, domainPartition]

/-- C8: every request in a batch receives the same outcome: on CreateTasks
success all waiters get the shared persistence response with nil error; on a
CreateTasks or newTaskIDs error all waiters get that same error with nil
response; no two delivered responses in a batch differ. -/
theorem batch_responses_uniform (request : WriteTaskRequest)
    (ch : List WriteTaskRequest) (maxRL : Int) (taskIDs : List Int)
    (resp e eIDs : Nat) (cres : Except Nat Nat) :
    ((taskWriterBatchStep request ch maxRL (Except.ok taskIDs)
          (Except.ok resp)).responses
       = (getWriteBatch ch [request]).1.map
           (fun r => (r.responseCh,
             { err := none, persistenceResponse := some resp }))) ∧
    ((taskWriterBatchStep request ch maxRL (Except.ok taskIDs)
          (Except.error e)).responses
       = (getWriteBatch ch [request]).1.map
           (fun r => (r.responseCh,
             { err := some (WriterError.store e), persistenceResponse := none }))) ∧
    ((taskWriterBatchStep request ch maxRL (Except.error eIDs) cres).responses
       = (getWriteBatch ch [request]).1.map
           (fun r => (r.responseCh,
             { err := some (WriterError.store eIDs), persistenceResponse := none }))) ∧
    (∀ p ∈ (taskWriterBatchStep request ch maxRL (Except.ok taskIDs)
          cres).responses,
     ∀ q ∈ (taskWriterBatchStep request ch maxRL (Except.ok taskIDs)
          cres).responses, p.2 = q.2) := by
  refine ⟨rfl, rfl, rfl, ?_⟩
  intro p hp q hq
  cases cres with
  | ok r0 =>
    exact sendWriteResponse_uniform (getWriteBatch ch [request]).1 none (some r0)
      p hp q hq
  | error e0 =>
    exact sendWriteResponse_uniform (getWriteBatch ch [request]).1
      (some (WriterError.store e0)) none p hp q hq

/-- Witness for C8: in the singleton batch committed with response 0, the one
delivered response agrees with itself, obtained through the uniformity
theorem at that concrete batch. -/
theorem batch_responses_uniform_witness :
    ((4 : Nat), ({ err := none, persistenceResponse := some 0 }
        : WriteTaskResponse)).2
      = ((4 : Nat), ({ err := none, persistenceResponse := some 0 }
        : WriteTaskResponse)).2 := by
  exact (batch_responses_uniform reqA [] 0 [5] 0 9 8 (Except.ok 0)).2.2.2
    (4, { err := none, persistenceResponse := some 0 }) (by decide)
    (4, { err := none, persistenceResponse := some 0 }) (by decide)

/-- C9: Service.Stop performs a non-blocking send on the unbuffered stop
channel and never blocks; the signal is delivered exactly when Start is
parked at its receive, in which case the service shuts down; otherwise the
signal is silently discarded and the state is unchanged, so the service
keeps running. -/
theorem serviceStop_nonblocking (st : MatchingServiceState) :
    (serviceStop st).2 ≠ SendOutcome.blocked ∧
    ((serviceStop st).2 = SendOutcome.delivered ↔ st.startWaitingOnStopC = true) ∧
    (st.startWaitingOnStopC = false → serviceStop st = (st, SendOutcome.discarded)) ∧
    (st.startWaitingOnStopC = true →
      (serviceStop st).1.running = false ∧
      (serviceStop st).2 = SendOutcome.delivered) := by
  cases h : st.startWaitingOnStopC <;>
    simp [serviceStop, selectSendDefault, h]

/-- Witness for C9: with Start not at the receive, Stop leaves the running
service untouched; with Start parked there, Stop shuts it down. -/
theorem serviceStop_nonblocking_witness :
    serviceStop { startWaitingOnStopC := false, running := true }
      = ({ startWaitingOnStopC := false, running := true }, SendOutcome.discarded) ∧
    (serviceStop { startWaitingOnStopC := true, running := true }).1.running = false ∧
    (serviceStop { startWaitingOnStopC := true, running := true }).2
      = SendOutcome.delivered := by
  refine ⟨?_, ?_⟩
  · exact (serviceStop_nonblocking
      { startWaitingOnStopC := false, running := true }).2.2.1 rfl
  · exact (serviceStop_nonblocking
      { startWaitingOnStopC := true, running := true }).2.2.2 rfl

/-- C10: every metricClient wrapper is observationally transparent to its
caller — for every underlying client, metrics log and input, it returns
exactly the response/error pair the wrapped client produced, unchanged. -/
theorem metricClient_passthrough :
    (∀ (Ctx Req ρ : Type) (client : Ctx → Req → CallResult ρ) (log : MetricsLog)
        (context : Ctx) (request : Req),
      (metricClient.StartWorkflowExecution client log context request).1
        = client context request) ∧
    (∀ (Ctx Req ρ : Type) (client : Ctx → Req → CallResult ρ) (log : MetricsLog)
        (context : Ctx) (request : Req),
      (metricClient.GetWorkflowExecutionNextEventID client log context request).1
        = client context request) ∧
    (∀ (Ctx Req ρ : Type) (client : Ctx → Req → CallResult ρ) (log : MetricsLog)
        (context : Ctx) (request : Req),
      (metricClient.RecordDecisionTaskStarted client log context request).1
        = client context request) ∧
    (∀ (Ctx Req ρ : Type) (client : Ctx → Req → CallResult ρ) (log : MetricsLog)
        (context : Ctx) (request : Req),
      (metricClient.RecordActivityTaskStarted client log context request).1
        = client context request) ∧
    (∀ (Ctx Req : Type) (client : Ctx → Req → Option Nat) (log : MetricsLog)
        (context : Ctx) (request : Req),
      (metricClient.RespondDecisionTaskCompleted client log context request).1
        = client context request) ∧
    (∀ (Ctx Req : Type) (client : Ctx → Req → Option Nat) (log : MetricsLog)
        (context : Ctx) (request : Req),
      (metricClient.RespondActivityTaskCompleted client log context request).1
        = client context request) ∧
    (∀ (Ctx Req : Type) (client : Ctx → Req → Option Nat) (log : MetricsLog)
        (context : Ctx) (request : Req),
      (metricClient.RespondActivityTaskFailed client log context request).1
        = client context request) ∧
    (∀ (Ctx Req : Type) (client : Ctx → Req → Option Nat) (log : MetricsLog)
        (context : Ctx) (request : Req),
      (metricClient.RespondActivityTaskCanceled client log context request).1
        = client context request) ∧
    (∀ (Ctx Req ρ : Type) (client : Ctx → Req → CallResult ρ) (log : MetricsLog)
        (context : Ctx) (request : Req),
      (metricClient.RecordActivityTaskHeartbeat client log context request).1
        = client context request) ∧
    (∀ (Ctx Req : Type) (client : Ctx → Req → Option Nat) (log : MetricsLog)
        (context : Ctx) (request : Req),
      (metricClient.RequestCancelWorkflowExecution client log context request).1
        = client context request) ∧
    (∀ (Ctx Req : Type) (client : Ctx → Req → Option Nat) (log : MetricsLog)
        (context : Ctx) (request : Req),
      (metricClient.SignalWorkflowExecution client log context request).1
        = client context request) ∧
    (∀ (Ctx Req : Type) (client : Ctx → Req → Option Nat) (log : MetricsLog)
        (context : Ctx) (request : Req),
      (metricClient.TerminateWorkflowExecution client log context request).1
        = client context request) ∧
    (∀ (Ctx Req : Type) (client : Ctx → Req → Option Nat) (log : MetricsLog)
        (context : Ctx) (request : Req),
      (metricClient.ScheduleDecisionTask client log context request).1
        = client context request) ∧
    (∀ (Ctx Req : Type) (client : Ctx → Req → Option Nat) (log : MetricsLog)
        (context : Ctx) (request : Req),
      (metricClient.RecordChildExecutionCompleted client log context request).1
        = client context request) := by
  refine ⟨?_, ?_, ?_, ?_, ?_, ?_, ?_, ?_, ?_, ?_, ?_, ?_, ?_, ?_⟩ <;>
    intros <;> rfl

end Cadence
